import Mathlib

/-!
Verification of the CDR phone-number processing core of `VI_GetCDRs.js`
(TBSSync-CDR repository).

The development is a shallow embedding of the JavaScript source:

* JS field values delivered to the record processor are modeled by `JSField`
  (a string, an absent/undefined value, or a non-string value carrying only
  its truthiness).
* JS strings under digit manipulation are modeled as `List Char`; the final
  returned values are rebuilt with `String.mk`.
* The mutable statistics object (`createProcessingStats`) is modeled by the
  structure `ProcessingStats`, threaded explicitly; the `processingStartTime`
  field of the source (used only for throughput logging) is not modeled.
* `console.log` / `console.warn` effects of the classifier are modeled as a
  list of `LogEvent` values; the several consecutive `console.warn` lines of
  a single branch are modeled as one event carrying the same information.
* Exceptions inside the per-record `try` block are modeled with `Except`;
  the `catch` produces a dropped record (`none`).
* Dates: `new Date(string)` either yields a valid instant (epoch
  milliseconds) or an Invalid Date, decided by an environment function;
  `getTimezoneOffset` observations are environment functions; `setHours`
  with an hour delta is modeled as an absolute shift (the wall-clock
  re-normalization across a DST boundary is abstracted, no claim depends on
  it); `toISOString` throws on an Invalid Date and its textual format is
  abstracted to an injective rendering of the instant.
-/

namespace CDR

/-- A JavaScript value as it can appear in a parsed CDR record field:
`missing` is `undefined`/`null`, `str` a string, and `nonstr` any non-string
value of which only the truthiness is relevant to the modeled code. -/
inductive JSField where
  | missing
  | str (s : String)
  | nonstr (truthy : Bool)
deriving Repr, DecidableEq

/-- JS truthiness of a field value: `undefined`/`null` are falsy, a string is
truthy iff nonempty, and a non-string value carries its truthiness. -/
def JSField.truthy : JSField → Bool
  | .missing => false
  | .str s => !s.isEmpty
  | .nonstr t => t

/-- The statistics object created by `createProcessingStats`
(`VI_GetCDRs.js` lines 647-673). The JS `Set` of unique numbers is modeled
as a duplicate-free list; `processingStartTime` is not modeled. -/
structure ProcessingStats where
  totalProcessed : Nat
  tenDigitNumbers : Nat
  serviceNumbers : Nat
  invalidNumbers : Nat
  svc911 : Nat
  svc411 : Nat
  svc511 : Nat
  svc611 : Nat
  svc711 : Nat
  svc811 : Nat
  invalidExamples : List String
  catInternational : Nat
  catShortCodes : Nat
  catInvalidLength : Nat
  catInvalidPattern : Nat
  catInvalidAreaCode : Nat
  uniqueNumbers : List String
deriving Repr, DecidableEq

/-- Embedding of `createProcessingStats` (lines 647-673): all counters zero,
empty example list, empty unique-number set. -/
def createProcessingStats : ProcessingStats :=
  { totalProcessed := 0, tenDigitNumbers := 0, serviceNumbers := 0
    invalidNumbers := 0
    svc911 := 0, svc411 := 0, svc511 := 0, svc611 := 0, svc711 := 0
    svc811 := 0
    invalidExamples := []
    catInternational := 0, catShortCodes := 0, catInvalidLength := 0
    catInvalidPattern := 0, catInvalidAreaCode := 0
    uniqueNumbers := [] }

/-- Embedding of the constant `VALID_SERVICE_NUMBERS` (line 559). -/
def VALID_SERVICE_NUMBERS : List String :=
  ["911", "411", "511", "611", "711", "811"]

/-- Embedding of `isValidServiceNumber` (lines 593-595):
`VALID_SERVICE_NUMBERS.includes(number)`. -/
def isValidServiceNumber (number : String) : Bool :=
  VALID_SERVICE_NUMBERS.contains number

/-- JS `Set.add` on the modeled unique-number list: inserts only when the
element is not already present. -/
def setAdd (l : List String) (x : String) : List String :=
  if x ∈ l then l else l ++ [x]

/-- The guarded push used for `stats.invalidExamples` (kept below 10
entries): `if (stats.invalidExamples.length < 10) push`. -/
def pushExample (l : List String) (e : String) : List String :=
  if l.length < 10 then l ++ [e] else l

/-- Embedding of `stats.serviceNumberBreakdown[cleaned]++` (line 808): the
breakdown counters are separate fields, selected by the service code. -/
def bumpBreakdown (st : ProcessingStats) (code : String) : ProcessingStats :=
  if code = "911" then { st with svc911 := st.svc911 + 1 }
  else if code = "411" then { st with svc411 := st.svc411 + 1 }
  else if code = "511" then { st with svc511 := st.svc511 + 1 }
  else if code = "611" then { st with svc611 := st.svc611 + 1 }
  else if code = "711" then { st with svc711 := st.svc711 + 1 }
  else if code = "811" then { st with svc811 := st.svc811 + 1 }
  else st

/-- Console effects of the classifier, as abstract events. -/
inductive LogEvent where
  | debugServiceDetected (raw cleaned : String)
  | warnInvalid3Digit (raw cleaned : String)
  | warnInvalidLength (raw : String) (len : Nat)
  | warnRecordError
deriving Repr, DecidableEq

/-- Result of one `cleanPhoneNumber` call: the returned value, the
statistics object after the call (still `none` when none was supplied), and
the console output of the call. -/
structure CleanResult where
  result : Option String
  stats : Option ProcessingStats
  logs : List LogEvent
deriving Repr, DecidableEq

/-- JS `phone.replace(/\D/g, '')`: keep exactly the ASCII digits. -/
def jsStripDigits (s : String) : List Char :=
  s.data.filter fun c => c.isDigit

/-- Embedding of the body of `cleanPhoneNumber` after the
character-normalization phase (lines 779-919), taking the original string
`phone` (used only in log and example texts) and the stripped digit list
`cleaned`. -/
def cleanPhoneNumberCore (phone : String) (cleaned : List Char)
    (stats : Option ProcessingStats) (dbg : Bool) : CleanResult :=
  -- if (!cleaned || cleaned.length === 0) return null;
  if cleaned.isEmpty then { result := none, stats := stats, logs := [] }
  else if cleaned.length = 3 then
    if isValidServiceNumber (String.mk cleaned) then
      { result := some (String.mk cleaned)
        stats := stats.map fun st =>
          let st1 := bumpBreakdown
            { st with serviceNumbers := st.serviceNumbers + 1 }
            (String.mk cleaned)
          { st1 with totalProcessed := st1.totalProcessed + 1
                     uniqueNumbers :=
                       setAdd st1.uniqueNumbers (String.mk cleaned) }
        logs := if dbg
          then [.debugServiceDetected phone (String.mk cleaned)] else [] }
    else
      { result := none
        stats := stats.map fun st =>
          { st with invalidNumbers := st.invalidNumbers + 1
                    totalProcessed := st.totalProcessed + 1
                    catShortCodes := st.catShortCodes + 1
                    invalidExamples :=
                      pushExample st.invalidExamples
                        ("Invalid 3-digit: " ++ phone) }
        logs := [.warnInvalid3Digit phone (String.mk cleaned)] }
  else
    -- if (cleaned.length === 11 && cleaned.startsWith( 1 ))
    --   cleaned = cleaned.substring(1);
    let cleaned2 :=
      if cleaned.length = 11 ∧ cleaned.headD ' ' = '1'
      then cleaned.drop 1 else cleaned
    if cleaned2.length = 10 then
      if String.mk cleaned2 = "0000000000" ∨
         String.mk cleaned2 = "1111111111" then
        { result := none
          stats := stats.map fun st =>
            { st with invalidNumbers := st.invalidNumbers + 1
                      totalProcessed := st.totalProcessed + 1
                      catInvalidPattern := st.catInvalidPattern + 1
                      invalidExamples :=
                        pushExample st.invalidExamples
                          ("Invalid pattern: " ++ phone) }
          logs := [] }
      else if '2' ≤ cleaned2.headD ' ' ∧ cleaned2.headD ' ' ≤ '9' then
        { result := some (String.mk cleaned2)
          stats := stats.map fun st =>
            { st with tenDigitNumbers := st.tenDigitNumbers + 1
                      totalProcessed := st.totalProcessed + 1
                      uniqueNumbers :=
                        setAdd st.uniqueNumbers (String.mk cleaned2) }
          logs := [] }
      else
        { result := none
          stats := stats.map fun st =>
            { st with invalidNumbers := st.invalidNumbers + 1
                      totalProcessed := st.totalProcessed + 1
                      catInvalidAreaCode := st.catInvalidAreaCode + 1
                      invalidExamples :=
                        pushExample st.invalidExamples
                          ("Invalid area code: " ++ phone) }
          logs := [] }
    else
      { result := none
        stats := stats.map fun st =>
          let st1 :=
            if cleaned2.length > 10 then
              { st with catInternational := st.catInternational + 1 }
            else if 4 ≤ cleaned2.length ∧ cleaned2.length ≤ 6 then
              { st with catShortCodes := st.catShortCodes + 1 }
            else
              { st with catInvalidLength := st.catInvalidLength + 1 }
          { st1 with invalidNumbers := st1.invalidNumbers + 1
                     totalProcessed := st1.totalProcessed + 1
                     invalidExamples :=
                       pushExample st1.invalidExamples
                         ("Invalid length (" ++
                           toString cleaned2.length ++ "): " ++ phone) }
        logs :=
          if cleaned2.length ≠ 10 ∧ cleaned2.length ≠ 3
          then [.warnInvalidLength phone cleaned2.length] else [] }

/-- Embedding of `cleanPhoneNumber(phone, stats = null)` (lines 769-919):
the input-validation and character-normalization phases, then the core.
The parameter `dbg` models
`process.env.LOG_LEVEL === debug || process.env.LOG_SERVICE_NUMBER_DETAILS === true`. -/
def cleanPhoneNumber (phone : JSField) (stats : Option ProcessingStats)
    (dbg : Bool) : CleanResult :=
  match phone with
  | .str s =>
    -- if (!phone || typeof phone !== string) return null;
    if s.isEmpty then { result := none, stats := stats, logs := [] }
    else cleanPhoneNumberCore s (jsStripDigits s) stats dbg
  | _ => { result := none, stats := stats, logs := [] }

/-- The invalid-classification reasons of the specification (spec section 3,
ClassificationOutcome). -/
inductive InvalidReason where
  | internationalLength
  | shortCode
  | otherLength
  | allZerosOrOnes
  | badAreaCodeDigit
  | emptyOrNonNumeric
deriving Repr, DecidableEq

/-- The classification outcome of the specification (spec section 3). -/
inductive Outcome where
  | serviceNumber (code : String)
  | tenDigit (value : String)
  | invalid (r : InvalidReason)
deriving Repr, DecidableEq

/-- Specification-side classification of a stripped digit string, written
from steps 2-6 of the algorithm of spec section 4.1: an empty digit string
is EmptyOrNonNumeric; exactly 3 digits are looked up in the fixed
whitelist; 11 digits with a leading 1 drop it and are treated as 10
digits; 10 digits are checked for the all-zeros/all-ones patterns and then
for a first digit in 2-9; any other length is classified by the length
heuristic. -/
def classifySpecCore (digits : List Char) : Outcome :=
  if digits.isEmpty then .invalid .emptyOrNonNumeric
  else if digits.length = 3 then
    if String.mk digits ∈ VALID_SERVICE_NUMBERS then
      .serviceNumber (String.mk digits)
    else .invalid .shortCode
  else
    let digits2 :=
      if digits.length = 11 ∧ digits.headD ' ' = '1'
      then digits.drop 1 else digits
    if digits2.length = 10 then
      if String.mk digits2 = "0000000000" ∨
         String.mk digits2 = "1111111111" then
        .invalid .allZerosOrOnes
      else if '2' ≤ digits2.headD ' ' ∧ digits2.headD ' ' ≤ '9' then
        .tenDigit (String.mk digits2)
      else .invalid .badAreaCodeDigit
    else if digits2.length > 10 then .invalid .internationalLength
    else if 4 ≤ digits2.length ∧ digits2.length ≤ 6 then
      .invalid .shortCode
    else .invalid .otherLength

/-- Specification-side classifier, written from the algorithm of spec
section 4.1 (steps 1-6), for the refinement claim: a null, non-string or
empty input is EmptyOrNonNumeric (step 1); otherwise the ASCII digits are
kept (step 2) and classified by `classifySpecCore` (steps 2-6). -/
def classifySpec (raw : JSField) : Outcome :=
  match raw with
  | .str s =>
    if s.isEmpty then .invalid .emptyOrNonNumeric
    else classifySpecCore (jsStripDigits s)
  | _ => .invalid .emptyOrNonNumeric

/-- The value a classification outcome corresponds to in the code: the
cleaned string for the two valid kinds, null for any invalid kind. -/
def outcomeResult : Outcome → Option String
  | .serviceNumber c => some c
  | .tenDigit v => some v
  | .invalid _ => none

/-- Whether an outcome is invalid. -/
def isInvalidOutcome : Outcome → Bool
  | .invalid _ => true
  | _ => false

/-- Observation of a `cleanPhoneNumber` run as a classification outcome: a
returned 3-digit value is a service number, a returned 10-digit value a
ten-digit number; a null result is classified by which invalid-category
counter rose above its starting value, and by EmptyOrNonNumeric when none
did (the code records nothing for empty or non-numeric input). -/
def observeOutcome (res : CleanResult) (st0 : ProcessingStats) : Outcome :=
  match res.result with
  | some v => if v.length = 3 then .serviceNumber v else .tenDigit v
  | none =>
    match res.stats with
    | some st =>
      if st.catInternational > st0.catInternational then
        .invalid .internationalLength
      else if st.catInvalidPattern > st0.catInvalidPattern then
        .invalid .allZerosOrOnes
      else if st.catInvalidAreaCode > st0.catInvalidAreaCode then
        .invalid .badAreaCodeDigit
      else if st.catShortCodes > st0.catShortCodes then
        .invalid .shortCode
      else if st.catInvalidLength > st0.catInvalidLength then
        .invalid .otherLength
      else .invalid .emptyOrNonNumeric
    | none => .invalid .emptyOrNonNumeric

/-- The classification outcome the code produces for a raw field value,
observed on a fresh statistics object. -/
def codeOutcome (raw : JSField) : Outcome :=
  observeOutcome (cleanPhoneNumber raw (some createProcessingStats) false)
    createProcessingStats

/-- The statistics object after one classification that was given a
statistics object (the call always returns one in that case). -/
def statsAfter (phone : JSField) (st : ProcessingStats) (dbg : Bool) :
    ProcessingStats :=
  ((cleanPhoneNumber phone (some st) dbg).stats).getD st

/-- The per-reason invalid breakdown counter of the statistics object for a
reason. The code has no counter at all for EmptyOrNonNumeric; that reason
maps to the constant 0. -/
def reasonCount (st : ProcessingStats) : InvalidReason → Nat
  | .internationalLength => st.catInternational
  | .shortCode => st.catShortCodes
  | .otherLength => st.catInvalidLength
  | .allZerosOrOnes => st.catInvalidPattern
  | .badAreaCodeDigit => st.catInvalidAreaCode
  | .emptyOrNonNumeric => 0

/-- The batch invariant of spec section 3: processed equals the sum of the
three buckets. -/
def balanced (st : ProcessingStats) : Prop :=
  st.totalProcessed =
    st.tenDigitNumbers + st.serviceNumbers + st.invalidNumbers

instance (st : ProcessingStats) : Decidable (balanced st) := by
  unfold balanced; infer_instance

/-- One raw CDR record as the CSV-parsing collaborator delivers it to
`processAndCleanCDRs`: named fields, each an arbitrary JS value. -/
structure RawCDRRecord where
  StartTime : JSField
  BillDuration : JSField
  CallPrice : JSField
  ANI : JSField
  DNIS : JSField
  CustomerIP : JSField
  CallType : JSField
  LRN : JSField
deriving Repr, DecidableEq

/-- A JS `Date` object: either an Invalid Date or a valid instant in epoch
milliseconds. -/
inductive JsDate where
  | invalid
  | valid (epochMs : Int)
deriving Repr, DecidableEq

/-- The host environment the record processor runs in: how `new Date(s)`
parses a string (none = Invalid Date), and the two `getTimezoneOffset`
observations of `getPSTOffset` — the offset in minutes of a valid instant,
and the offset of January 1 of that instant's local year. -/
structure JsEnv where
  parseDate : String → Option Int
  dateTz : Int → Int
  jan1Tz : Int → Int

/-- Embedding of `getPSTOffset(date)` (lines 529-537).
For a valid date: `isDST = date.getTimezoneOffset() < new
Date(date.getFullYear(), 0, 1).getTimezoneOffset()`, result -7 when isDST
else -8. For an Invalid Date both observations are NaN, every NaN
comparison is false, so the result is -8. The unused local variables `utc`
and `pst` of the source are dropped. -/
def getPSTOffset (env : JsEnv) : JsDate → Int
  | .invalid => -8
  | .valid t => if env.dateTz t < env.jan1Tz t then -7 else -8

/-- The `startTime.setHours(startTime.getHours() + pstOffset)` adjustment:
modeled as an absolute shift by the given number of hours; an Invalid Date
stays invalid. -/
def adjustHours : JsDate → Int → JsDate
  | .invalid, _ => .invalid
  | .valid t, h => .valid (t + h * 3600000)

/-- The StartTime block of the record processor (lines 222-228): nothing
when the field is falsy; otherwise `new Date(record.StartTime)` (a
non-string truthy StartTime is modeled as an Invalid Date; no claim covers
that case). -/
def parseStartTime (env : JsEnv) (f : JSField) : Option JsDate :=
  if f.truthy then
    some (match f with
      | .str s =>
        match env.parseDate s with
        | some t => .valid t
        | none => .invalid
      | _ => .invalid)
  else none

/-- JS `Date.prototype.toISOString`: throws a RangeError on an Invalid
Date; the textual format of a valid instant is abstracted to an injective
rendering of its epoch milliseconds. -/
def toISOString : JsDate → Except Unit String
  | .invalid => .error ()
  | .valid t => .ok ("epoch-ms " ++ toString t)

/-- Whitespace skipped by JS `parseInt` and `parseFloat` before parsing. -/
def jsIsWhitespace (c : Char) : Bool :=
  c = ' ' ∨ c = '\t' ∨ c = '\n' ∨ c = '\r'

/-- Numeric value of a run of decimal digit characters. -/
def digitsVal (l : List Char) : Nat :=
  l.foldl (fun a c => a * 10 + (c.toNat - 48)) 0

/-- Hexadecimal digit test, as accepted by JS `parseInt` after a 0x
prefix. -/
def isHexDigitChar (c : Char) : Bool :=
  c.isDigit ∨ ('a' ≤ c ∧ c ≤ 'f') ∨ ('A' ≤ c ∧ c ≤ 'F')

/-- Numeric value of a run of hexadecimal digit characters. -/
def hexVal (l : List Char) : Nat :=
  l.foldl
    (fun a c =>
      a * 16 +
        (if c.isDigit then c.toNat - 48
         else if 'a' ≤ c ∧ c ≤ 'f' then c.toNat - 87
         else c.toNat - 55))
    0

/-- JS `parseInt(s)` with no radix argument: skip leading whitespace, an
optional sign, then either a 0x/0X-prefixed hexadecimal digit run or a
decimal digit run; NaN (none) when no digit follows. -/
def jsParseInt (s : String) : Option Int :=
  let l := s.data.dropWhile jsIsWhitespace
  let sgn : Int := match l with
    | '-' :: _ => -1
    | _ => 1
  let l1 := match l with
    | '-' :: r => r
    | '+' :: r => r
    | _ => l
  match l1 with
  | '0' :: c :: r =>
    if c = 'x' ∨ c = 'X' then
      let ds := r.takeWhile isHexDigitChar
      if ds.isEmpty then none else some (sgn * (hexVal ds : Int))
    else
      let ds := l1.takeWhile Char.isDigit
      some (sgn * (digitsVal ds : Int))
  | _ =>
    let ds := l1.takeWhile Char.isDigit
    if ds.isEmpty then none else some (sgn * (digitsVal ds : Int))

/-- JS `parseFloat(s)`: skip leading whitespace, an optional sign, a
decimal-digit run with an optional fractional part, then an optional
exponent part (ignored when no digit follows the e); NaN (none) when
neither the integer nor the fractional part has a digit. The Infinity
literal is not modeled. -/
def jsParseFloat (s : String) : Option Rat :=
  let l := s.data.dropWhile jsIsWhitespace
  let sgn : Int := match l with
    | '-' :: _ => -1
    | _ => 1
  let l1 := match l with
    | '-' :: r => r
    | '+' :: r => r
    | _ => l
  let ip := l1.takeWhile Char.isDigit
  let l2 := l1.drop ip.length
  let fp := match l2 with
    | '.' :: r => r.takeWhile Char.isDigit
    | _ => []
  let l3 := match l2 with
    | '.' :: r => r.dropWhile Char.isDigit
    | _ => l2
  if ip.isEmpty ∧ fp.isEmpty then none
  else
    let e : Int := match l3 with
      | 'e' :: r | 'E' :: r =>
        let es : Int := match r with
          | '-' :: _ => -1
          | _ => 1
        let r2 := match r with
          | '-' :: rr => rr
          | '+' :: rr => rr
          | _ => r
        let ed := r2.takeWhile Char.isDigit
        if ed.isEmpty then 0 else es * (digitsVal ed : Int)
      | _ => 0
    -- sign * (ip.fp) * 10^e, assembled as a single exact fraction
    some (mkRat
      (sgn * ((digitsVal ip * 10 ^ fp.length + digitsVal fp : Nat) : Int) *
        (10 : Int) ^ e.toNat)
      (10 ^ fp.length * 10 ^ (-e).toNat))

/-- The `parseInt(record.BillDuration)` call on a field value:
`parseInt(undefined)` is NaN; non-string coercions are outside the modeled
scope and also map to NaN. -/
def jsParseIntField : JSField → Option Int
  | .str s => jsParseInt s
  | _ => none

/-- The `parseFloat(record.CallPrice)` call on a field value, as for
`jsParseIntField`. -/
def jsParseFloatField : JSField → Option Rat
  | .str s => jsParseFloat s
  | _ => none

/-- The `record.X || ''` passthrough used for CustomerIP, CallType and LRN
(a non-string truthy value would pass through unchanged in JS; no claim
covers that case). -/
def strOrEmpty : JSField → String
  | .str s => s
  | _ => ""

/-- One cleaned CDR record (the object literal of lines 250-259). -/
structure CleanedCDRRecord where
  StartTime : Option String
  BillDuration : Int
  CallPrice : Rat
  ANI : Option String
  DNIS : Option String
  CustomerIP : String
  CallType : String
  LRN : String
deriving Repr, DecidableEq

/-- Embedding of the invalid-phone tracking blocks (lines 235-248): entered
when the classifier returned null and the raw field is truthy; calls
`.replace` on the raw field, which throws a TypeError when the field is not
a string; a valid 3-digit service number would be skipped (the check is
vacuous there, since service numbers never classify to null); every other
value is appended, tagged with the field name. -/
def trackInvalid (cleanedResult : Option String) (fld : JSField)
    (tag : String) (inv : List String) : Except Unit (List String) :=
  if cleanedResult.isNone ∧ fld.truthy then
    match fld with
    | .str s =>
      let cleanedF := jsStripDigits s
      if cleanedF.length ≠ 3 ∨
         isValidServiceNumber (String.mk cleanedF) = false then
        .ok (inv ++ [tag ++ s])
      else .ok inv
    | _ => .error ()
  else .ok inv

/-- Result of processing one raw record: the emitted cleaned record (none
when the record was dropped by the catch handler), the statistics and
invalid-phone tracking list after the record, and the console output. -/
structure RecordOutcome where
  emitted : Option CleanedCDRRecord
  stats : ProcessingStats
  invalid : List String
  logs : List LogEvent
deriving Repr, DecidableEq

/-- Embedding of the per-record body of `processAndCleanCDRs.map` (lines
219-264): StartTime parse and PST adjustment, ANI then DNIS
classification, ANI then DNIS invalid tracking (each can throw on a
non-string truthy field), then the cleaned-record literal (whose StartTime
rendering throws on an Invalid Date). Any throw is caught: the record is
dropped (`emitted := none`) with a warning, and all statistics and tracking
mutations made before the throw persist. -/
def processRecord (env : JsEnv) (r : RawCDRRecord) (st0 : ProcessingStats)
    (inv0 : List String) (dbg : Bool) : RecordOutcome :=
  let startTime :=
    (parseStartTime env r.StartTime).map fun d =>
      adjustHours d (getPSTOffset env d)
  let a := cleanPhoneNumber r.ANI (some st0) dbg
  let st1 := a.stats.getD st0
  let d := cleanPhoneNumber r.DNIS (some st1) dbg
  let st2 := d.stats.getD st1
  let logs1 := a.logs ++ d.logs
  match trackInvalid a.result r.ANI "ANI: " inv0 with
  | .error _ =>
    { emitted := none, stats := st2, invalid := inv0
      logs := logs1 ++ [.warnRecordError] }
  | .ok inv1 =>
    match trackInvalid d.result r.DNIS "DNIS: " inv1 with
    | .error _ =>
      { emitted := none, stats := st2, invalid := inv1
        logs := logs1 ++ [.warnRecordError] }
    | .ok inv2 =>
      match (match startTime with
             | none => Except.ok (none : Option String)
             | some dte => (toISOString dte).map some) with
      | .error _ =>
        { emitted := none, stats := st2, invalid := inv2
          logs := logs1 ++ [.warnRecordError] }
      | .ok stIso =>
        { emitted := some
            { StartTime := stIso
              BillDuration := (jsParseIntField r.BillDuration).getD 0
              CallPrice := (jsParseFloatField r.CallPrice).getD 0
              ANI := a.result
              DNIS := d.result
              CustomerIP := strOrEmpty r.CustomerIP
              CallType := strOrEmpty r.CallType
              LRN := strOrEmpty r.LRN }
          stats := st2
          invalid := inv2
          logs := logs1 }

/-- The alert threshold of lines 444-445:
`Math.max(5, Math.floor(parsedCDRs.length * 0.1))`. The floating-point
product `n * 0.1` is modeled as the exact `n / 10`; the two floors agree
for every batch size below about 4.5e14 records. -/
def alertThreshold (batchSize : Nat) : Nat :=
  max 5 (batchSize / 10)

/-- Result of one batch run. -/
structure BatchResult where
  processedRecords : List CleanedCDRRecord
  stats : ProcessingStats
  invalidPhoneNumbers : List String
  alertSent : Bool
deriving Repr, DecidableEq

/-- Embedding of `processAndCleanCDRs(parsedCDRs)` (lines 165-527): a fresh
statistics object, the map over the records with dropped records filtered
out (the map and the null filter are fused into one fold), and the alert
decision of lines 444-524: when the tracking list is nonempty, an alert is
sent exactly when its length reaches the threshold. The extensive console
summary logging of the function is not modeled. The per-record step of the
fold (the `.map` body plus the null filter). -/
def batchStep (env : JsEnv) (dbg : Bool)
    (acc : ProcessingStats × List String × List CleanedCDRRecord)
    (r : RawCDRRecord) :
    ProcessingStats × List String × List CleanedCDRRecord :=
  let out := processRecord env r acc.1 acc.2.1 dbg
  (out.stats, out.invalid,
    acc.2.2 ++ (match out.emitted with | some c => [c] | none => []))

/-- The batch function itself: fresh statistics, the fold of `batchStep`
over the records, then the alert decision. -/
def processAndCleanCDRs (env : JsEnv) (records : List RawCDRRecord)
    (dbg : Bool) : BatchResult :=
  let fin := records.foldl (batchStep env dbg) (createProcessingStats, [], [])
  let inv := fin.2.1
  let alert :=
    if inv.length > 0 then
      decide (inv.length ≥ alertThreshold records.length)
    else false
  { processedRecords := fin.2.2, stats := fin.1
    invalidPhoneNumbers := inv, alertSent := alert }

/-- A field is a string or absent — the shape every field of a record
parsed from a CSV file has. -/
def isStrOrMissing : JSField → Bool
  | .nonstr _ => false
  | _ => true

/-- Per the claim on alerting: the number of genuinely invalid phone values
in a batch — ANI/DNIS fields bearing a (truthy, i.e. present and nonempty)
value whose classification fails. Valid service numbers and ten-digit
numbers classify successfully and therefore never count; a non-whitelisted
3-digit code classifies Invalid and counts. -/
def countInvalidField (f : JSField) : Nat :=
  if f.truthy ∧ isInvalidOutcome (classifySpec f) then 1 else 0

/-- Total genuinely-invalid phone-value count of a batch (both phone fields
of every record). -/
def genuinelyInvalidCount (records : List RawCDRRecord) : Nat :=
  (records.map fun r => countInvalidField r.ANI + countInvalidField r.DNIS).sum

/-- The tracking-list entry one phone field is expected to contribute: a
tagged copy of the raw value when the field holds a nonempty string whose
classification is Invalid, nothing otherwise. -/
def entryFor (f : JSField) (tag : String) : List String :=
  match f with
  | .str s =>
    if ¬s.isEmpty ∧ isInvalidOutcome (classifySpec (.str s)) = true
    then [tag ++ s] else []
  | _ => []

/-- Per the claim on invalid-phone tracking: the entries one record is
expected to contribute to the tracking list — each nonempty string ANI/DNIS
value whose classification is Invalid, tagged with its field name;
ServiceNumber and TenDigit values contribute nothing. -/
def trackEntriesSpec (r : RawCDRRecord) : List String :=
  entryFor r.ANI "ANI: " ++ entryFor r.DNIS "DNIS: "

/-- The StartTime conditions under which the record-building step cannot
throw: the field is falsy (StartTime stays null), or it is a string that
`new Date` parses. -/
def startTimeOk (env : JsEnv) (f : JSField) : Prop :=
  f.truthy = false ∨ ∃ s t, f = .str s ∧ env.parseDate s = some t

/-- A test environment for concrete evaluations: every StartTime string is
unparseable, and every timezone observation is the fixed PST offset of 480
minutes. -/
def testEnv : JsEnv :=
  { parseDate := fun _ => none
    dateTz := fun _ => 480
    jan1Tz := fun _ => 480 }

/-- An environment shaped like a southern-hemisphere host timezone
(offsets in minutes west of UTC): every date observes -600 while January 1
observes -660 — the two differ, yet the date offset is not smaller. -/
def southEnv : JsEnv :=
  { parseDate := fun _ => none
    dateTz := fun _ => -600
    jan1Tz := fun _ => -660 }

/-- A raw record whose every field is absent except the given ANI and
DNIS, for concrete evaluations. -/
def mkPhoneRecord (ani dnis : JSField) : RawCDRRecord :=
  { StartTime := .missing, BillDuration := .missing, CallPrice := .missing
    ANI := ani, DNIS := dnis, CustomerIP := .missing
    CallType := .missing, LRN := .missing }

/-- A raw record with a negative BillDuration and CallPrice text, for
concrete evaluations. -/
def recNegAmounts : RawCDRRecord :=
  { StartTime := .missing, BillDuration := .str "-5"
    CallPrice := .str "-0.05", ANI := .missing, DNIS := .missing
    CustomerIP := .missing, CallType := .missing, LRN := .missing }

/-- A batch of five records whose ANI is the invalid short code 123: five
genuinely invalid values, meeting the minimum alert threshold of five. -/
def alertBatch : List RawCDRRecord :=
  List.replicate 5 (mkPhoneRecord (.str "123") .missing)

/-! ## Theorems -/

theorem string_mk_length (l : List Char) : (String.mk l).length = l.length :=
  rfl

theorem isValidServiceNumber_iff (x : String) :
    isValidServiceNumber x = true ↔ x ∈ VALID_SERVICE_NUMBERS := by
  simp [isValidServiceNumber, List.elem_iff]

/-- Sanity: formatted service numbers, ten-digit numbers with a country
code, and the documented invalid inputs classify as the source comments
say. -/
example :
    codeOutcome (.str "9-1-1") = .serviceNumber "911" ∧
    codeOutcome (.str " 911 ") = .serviceNumber "911" ∧
    codeOutcome (.str "123") = .invalid .shortCode ∧
    codeOutcome (.str "5551234567") = .tenDigit "5551234567" ∧
    codeOutcome (.str "+1-555-123-4567") = .tenDigit "5551234567" ∧
    codeOutcome (.str "0000000000") = .invalid .allZerosOrOnes ∧
    codeOutcome (.str "1234567890") = .invalid .badAreaCodeDigit ∧
    codeOutcome (.str "+353874075705") = .invalid .internationalLength ∧
    codeOutcome (.str "41362") = .invalid .shortCode ∧
    codeOutcome (.str "0911") = .invalid .shortCode ∧
    codeOutcome (.str "12") = .invalid .otherLength ∧
    codeOutcome (.str "abc") = .invalid .emptyOrNonNumeric ∧
    codeOutcome (.str "") = .invalid .emptyOrNonNumeric := by
  decide

set_option maxHeartbeats 1000000

/-- Key refinement lemma: on any stripped digit list, observing a run of
the classifier core (result value plus which invalid-category counter
rose) yields exactly the specified classification of that digit list. -/
theorem observeOutcome_core (p : String) (c : List Char)
    (st0 : ProcessingStats) (dbg : Bool) :
    observeOutcome (cleanPhoneNumberCore p c (some st0) dbg) st0 =
      classifySpecCore c := by
  unfold observeOutcome cleanPhoneNumberCore classifySpecCore
  simp only []
  set c2 := if c.length = 11 ∧ c.headD ' ' = '1' then c.drop 1 else c
  split_ifs <;>
    simp_all [outcomeResult, isValidServiceNumber_iff, string_mk_length,
      lt_self_iff_false, lt_add_one]

/-- Claim C1: for every raw input string, the classifier
(`cleanPhoneNumber`) follows the specified algorithm — a 3-digit stripped
result is a ServiceNumber exactly when whitelisted and otherwise
Invalid(ShortCode); 11 digits with a leading 1 drop it and continue as 10
digits; a 10-digit result is checked for the all-zeros/all-ones patterns
and then for a first digit in 2-9; every other length is classified by the
length heuristic (>10 international, 4-6 short code, else other length);
an input stripping to nothing is Invalid(EmptyOrNonNumeric). -/
theorem c1_cleanPhoneNumber_follows_spec_algorithm (s : String) :
    codeOutcome (.str s) = classifySpec (.str s) := by
  unfold codeOutcome
  simp only [cleanPhoneNumber, classifySpec]
  by_cases h : s.isEmpty
  · simp [h, observeOutcome, lt_self_iff_false]
  · simp only [h, Bool.false_eq_true, if_false]
    exact observeOutcome_core s (jsStripDigits s) createProcessingStats false

theorem bumpBreakdown_totalProcessed (st : ProcessingStats) (code : String) :
    (bumpBreakdown st code).totalProcessed = st.totalProcessed := by
  unfold bumpBreakdown; split_ifs <;> rfl

theorem bumpBreakdown_tenDigitNumbers (st : ProcessingStats) (code : String) :
    (bumpBreakdown st code).tenDigitNumbers = st.tenDigitNumbers := by
  unfold bumpBreakdown; split_ifs <;> rfl

theorem bumpBreakdown_serviceNumbers (st : ProcessingStats) (code : String) :
    (bumpBreakdown st code).serviceNumbers = st.serviceNumbers := by
  unfold bumpBreakdown; split_ifs <;> rfl

theorem bumpBreakdown_invalidNumbers (st : ProcessingStats) (code : String) :
    (bumpBreakdown st code).invalidNumbers = st.invalidNumbers := by
  unfold bumpBreakdown; split_ifs <;> rfl

/-- Result characterization of the classifier core: the returned value is
exactly what the specified classification prescribes — the cleaned digits
for ServiceNumber/TenDigit, null for every Invalid — whatever the
statistics argument and debug flag. -/
theorem cleanPhoneNumberCore_result (p : String) (c : List Char)
    (stats : Option ProcessingStats) (dbg : Bool) :
    (cleanPhoneNumberCore p c stats dbg).result =
      outcomeResult (classifySpecCore c) := by
  unfold cleanPhoneNumberCore classifySpecCore
  simp only []
  set c2 := if c.length = 11 ∧ c.headD ' ' = '1' then c.drop 1 else c
  split_ifs <;> simp_all [outcomeResult, isValidServiceNumber_iff]

/-- Result characterization of the full classifier. -/
theorem cleanPhoneNumber_result (f : JSField) (stats : Option ProcessingStats)
    (dbg : Bool) :
    (cleanPhoneNumber f stats dbg).result = outcomeResult (classifySpec f) := by
  cases f with
  | missing => rfl
  | nonstr t => rfl
  | str s =>
    simp only [cleanPhoneNumber, classifySpec]
    by_cases h : s.isEmpty
    · simp [h, outcomeResult]
    · simp only [h, Bool.false_eq_true, if_false]
      exact cleanPhoneNumberCore_result s (jsStripDigits s) stats dbg

/-- With no statistics object supplied, the classifier returns none as its
statistics component. -/
theorem cleanPhoneNumber_stats_none (f : JSField) (dbg : Bool) :
    (cleanPhoneNumber f none dbg).stats = none := by
  cases f with
  | missing => rfl
  | nonstr t => rfl
  | str s =>
    simp only [cleanPhoneNumber]
    by_cases h : s.isEmpty
    · simp [h]
    · simp only [h, Bool.false_eq_true, if_false]
      unfold cleanPhoneNumberCore
      simp only []
      set c2 := if (jsStripDigits s).length = 11 ∧
        (jsStripDigits s).headD ' ' = '1'
        then (jsStripDigits s).drop 1 else jsStripDigits s
      split_ifs <;> rfl

/-- Claim C5 counterexample: classifying the string 123 with a fresh
statistics object mutates the statistics (four counters rise and an
example is recorded) and emits console warnings — the classifier is not
side-effect-free as claimed. -/
theorem c5_purity_counterexample :
    (cleanPhoneNumber (.str "123") (some createProcessingStats) false).stats ≠
      some createProcessingStats ∧
    (cleanPhoneNumber (.str "123") (some createProcessingStats) false).logs ≠
      [] := by
  decide

/-- Claim C5 as amended: the classification return value is pure — for
every input it is the same whatever statistics object and debug flag are
supplied — and with no statistics object supplied no statistics state
exists or is produced; but the function itself does mutate a supplied
statistics object and does log (see the counterexample). -/
theorem c5_result_purity_amended (f : JSField)
    (s1 s2 : Option ProcessingStats) (d1 d2 : Bool) :
    (cleanPhoneNumber f s1 d1).result = (cleanPhoneNumber f s2 d2).result ∧
    (cleanPhoneNumber f none d1).stats = none := by
  refine ⟨?_, cleanPhoneNumber_stats_none f d1⟩
  rw [cleanPhoneNumber_result, cleanPhoneNumber_result]

/-- Claim C9 counterexample: in a host timezone where the offset for the
date (-600) differs from the January 1 offset (-660) without being
smaller, the code applies -8, not the -7 the claim prescribes for any
differing offsets. -/
theorem c9_dst_counterexample :
    getPSTOffset southEnv (.valid 0) = -8 ∧
    southEnv.dateTz 0 ≠ southEnv.jan1Tz 0 := by
  decide

/-- Claim C9 as amended: for every parseable instant the adjustment is -7
exactly when the offset observed for the date is strictly smaller than the
offset observed for January 1 of its year (as under northern-hemisphere
daylight saving), and -8 otherwise; when the offsets only ever differ by
being smaller, this coincides with the claimed condition. -/
theorem c9_dst_amended (env : JsEnv) (t : Int) :
    getPSTOffset env (.valid t) = -7 ↔ env.dateTz t < env.jan1Tz t := by
  simp only [getPSTOffset]
  split_ifs with h <;> simp [h]

/-- Statistics characterization of the classifier core: an
EmptyOrNonNumeric digit list leaves the statistics object untouched; every
other classification raises totalProcessed by one, and every other Invalid
classification additionally raises invalidNumbers and its per-reason
counter by one. -/
theorem cleanPhoneNumberCore_stats (p : String) (c : List Char)
    (st : ProcessingStats) (dbg : Bool) :
    match classifySpecCore c with
    | .invalid .emptyOrNonNumeric =>
        (cleanPhoneNumberCore p c (some st) dbg).stats = some st
    | .invalid r =>
        (((cleanPhoneNumberCore p c (some st) dbg).stats).getD
            st).totalProcessed = st.totalProcessed + 1 ∧
        (((cleanPhoneNumberCore p c (some st) dbg).stats).getD
            st).invalidNumbers = st.invalidNumbers + 1 ∧
        reasonCount (((cleanPhoneNumberCore p c (some st) dbg).stats).getD st)
            r = reasonCount st r + 1
    | _ =>
        (((cleanPhoneNumberCore p c (some st) dbg).stats).getD
            st).totalProcessed = st.totalProcessed + 1 := by
  unfold cleanPhoneNumberCore classifySpecCore
  simp only []
  set c2 := if c.length = 11 ∧ c.headD ' ' = '1' then c.drop 1 else c
  split_ifs <;>
    simp_all [reasonCount, isValidServiceNumber_iff,
      bumpBreakdown_totalProcessed, bumpBreakdown_invalidNumbers]

/-- Claim C2 counterexample: the string abc strips to nothing, so its
classification is Invalid(EmptyOrNonNumeric); yet with a statistics object
present the code records nothing at all — totalProcessed and invalidCount
both stay 0, where the claim demands both rise (and no per-reason counter
for EmptyOrNonNumeric even exists in the statistics object). -/
theorem c2_stats_counterexample :
    classifySpec (.str "abc") = .invalid .emptyOrNonNumeric ∧
    (cleanPhoneNumber (.str "abc") (some createProcessingStats) false).stats =
      some createProcessingStats ∧
    (statsAfter (.str "abc") createProcessingStats false).totalProcessed = 0 ∧
    (statsAfter (.str "abc") createProcessingStats false).invalidNumbers =
      0 := by
  decide

/-- Claim C2 as amended: with a statistics object present, totalProcessed
rises by one for every classification whose outcome is not
EmptyOrNonNumeric, and every Invalid outcome other than EmptyOrNonNumeric
additionally raises invalidCount and that reason's per-reason breakdown
counter by one; a classification with outcome EmptyOrNonNumeric (null,
empty, non-string, or all-non-digit input) leaves the statistics object
entirely unchanged and is not counted. -/
theorem c2_stats_amended (f : JSField) (st : ProcessingStats) (dbg : Bool) :
    match classifySpec f with
    | .invalid .emptyOrNonNumeric =>
        (cleanPhoneNumber f (some st) dbg).stats = some st
    | .invalid r =>
        (statsAfter f st dbg).totalProcessed = st.totalProcessed + 1 ∧
        (statsAfter f st dbg).invalidNumbers = st.invalidNumbers + 1 ∧
        reasonCount (statsAfter f st dbg) r = reasonCount st r + 1
    | _ =>
        (statsAfter f st dbg).totalProcessed = st.totalProcessed + 1 := by
  cases f with
  | missing => rfl
  | nonstr t => rfl
  | str s =>
    by_cases he : s.isEmpty
    · simp [classifySpec, he, cleanPhoneNumber]
    · have hcore := cleanPhoneNumberCore_stats s (jsStripDigits s) st dbg
      simp only [classifySpec, statsAfter, cleanPhoneNumber, he,
        Bool.false_eq_true, if_false]
      exact hcore

/-- Balance preservation by the classifier core. -/
theorem cleanPhoneNumberCore_balanced (p : String) (c : List Char)
    (st : ProcessingStats) (dbg : Bool) (h : balanced st) :
    balanced (((cleanPhoneNumberCore p c (some st) dbg).stats).getD st) := by
  unfold cleanPhoneNumberCore
  simp only []
  set c2 := if c.length = 11 ∧ c.headD ' ' = '1' then c.drop 1 else c
  split_ifs <;>
    simp_all [balanced, bumpBreakdown_totalProcessed,
      bumpBreakdown_tenDigitNumbers, bumpBreakdown_serviceNumbers,
      bumpBreakdown_invalidNumbers] <;>
    omega

/-- Balance preservation by one classification. -/
theorem statsAfter_balanced (f : JSField) (st : ProcessingStats) (dbg : Bool)
    (h : balanced st) : balanced (statsAfter f st dbg) := by
  cases f with
  | missing => exact h
  | nonstr t => exact h
  | str s =>
    unfold statsAfter
    simp only [cleanPhoneNumber]
    by_cases he : s.isEmpty
    · simpa [he] using h
    · simp only [he, Bool.false_eq_true, if_false]
      exact cleanPhoneNumberCore_balanced s (jsStripDigits s) st dbg h

/-- An invalid outcome corresponds to a null return value. -/
theorem outcomeResult_invalid (o : Outcome) (h : isInvalidOutcome o = true) :
    outcomeResult o = none := by
  cases o <;> simp_all [outcomeResult, isInvalidOutcome]

/-- A nonempty string that classifies Invalid cannot be a whitelisted
3-digit code, so the tracking block's redundant service-number check never
excludes it. -/
theorem invalid_not_service (s : String) (he : ¬s.isEmpty = true)
    (r : InvalidReason) (hcl : classifySpec (.str s) = .invalid r) :
    (jsStripDigits s).length ≠ 3 ∨
      isValidServiceNumber (String.mk (jsStripDigits s)) = false := by
  by_cases h3 : (jsStripDigits s).length = 3
  · right
    by_cases hv : isValidServiceNumber (String.mk (jsStripDigits s)) = true
    · exfalso
      have hne : jsStripDigits s ≠ [] := by
        intro h0; rw [h0] at h3; simp at h3
      have hcs : classifySpec (.str s) =
          .serviceNumber (String.mk (jsStripDigits s)) := by
        simp [classifySpec, he, classifySpecCore, hne, h3,
          (isValidServiceNumber_iff _).mp hv]
      rw [hcs] at hcl
      exact Outcome.noConfusion hcl
    · simpa using hv
  · left; exact h3

/-- On a string-or-missing field, the tracking block never throws and
appends exactly the entries the amended tracking claim prescribes. -/
theorem trackInvalid_ok (f : JSField) (tag : String) (inv : List String)
    (h : isStrOrMissing f = true) :
    trackInvalid (outcomeResult (classifySpec f)) f tag inv =
      .ok (inv ++ entryFor f tag) := by
  cases f with
  | missing => simp [trackInvalid, entryFor, JSField.truthy]
  | nonstr t => simp [isStrOrMissing] at h
  | str s =>
    by_cases he : s.isEmpty
    · simp [trackInvalid, entryFor, JSField.truthy, he]
    · have he' : s.isEmpty = false := by simpa using he
      rcases hcl : classifySpec (.str s) with code | v | r
      · simp [trackInvalid, entryFor, hcl, outcomeResult, isInvalidOutcome]
      · simp [trackInvalid, entryFor, hcl, outcomeResult, isInvalidOutcome]
      · rcases invalid_not_service s he r hcl with h3 | hv
        · simp [trackInvalid, entryFor, hcl, outcomeResult,
            isInvalidOutcome, JSField.truthy, he', h3]
        · simp [trackInvalid, entryFor, hcl, outcomeResult,
            isInvalidOutcome, JSField.truthy, he', hv]

/-- The statistics a record run produces: both phone fields classified in
order, whatever else happens to the record. -/
theorem processRecord_stats (env : JsEnv) (r : RawCDRRecord)
    (st0 : ProcessingStats) (inv : List String) (dbg : Bool) :
    (processRecord env r st0 inv dbg).stats =
      statsAfter r.DNIS (statsAfter r.ANI st0 dbg) dbg := by
  unfold processRecord
  simp only []
  split
  · rfl
  · split
    · rfl
    · split <;> rfl

/-- The tracking list a record run produces on parser-shaped phone fields:
exactly the entries of the amended tracking claim are appended. -/
theorem processRecord_invalid (env : JsEnv) (r : RawCDRRecord)
    (st0 : ProcessingStats) (inv : List String) (dbg : Bool)
    (hA : isStrOrMissing r.ANI = true) (hD : isStrOrMissing r.DNIS = true) :
    (processRecord env r st0 inv dbg).invalid = inv ++ trackEntriesSpec r := by
  unfold processRecord
  simp only [cleanPhoneNumber_result]
  rw [trackInvalid_ok r.ANI "ANI: " inv hA]
  simp only []
  rw [trackInvalid_ok r.DNIS "DNIS: " (inv ++ entryFor r.ANI "ANI: ") hD]
  simp only []
  split <;> simp [trackEntriesSpec, List.append_assoc]

/-- On parser-shaped phone fields and a safe StartTime, a record is always
emitted, with the phone fields set to the classification results and the
amounts set to the parse-or-zero defaults. -/
theorem processRecord_emits (env : JsEnv) (r : RawCDRRecord)
    (st0 : ProcessingStats) (inv : List String) (dbg : Bool)
    (hA : isStrOrMissing r.ANI = true) (hD : isStrOrMissing r.DNIS = true)
    (hS : startTimeOk env r.StartTime) :
    ∃ c, (processRecord env r st0 inv dbg).emitted = some c ∧
      c.ANI = outcomeResult (classifySpec r.ANI) ∧
      c.DNIS = outcomeResult (classifySpec r.DNIS) ∧
      c.BillDuration = (jsParseIntField r.BillDuration).getD 0 ∧
      c.CallPrice = (jsParseFloatField r.CallPrice).getD 0 := by
  unfold processRecord
  simp only [cleanPhoneNumber_result]
  rw [trackInvalid_ok r.ANI "ANI: " inv hA]
  simp only []
  rw [trackInvalid_ok r.DNIS "DNIS: " (inv ++ entryFor r.ANI "ANI: ") hD]
  simp only []
  by_cases htr : r.StartTime.truthy = true
  · rcases hS with hfal | ⟨s, tm, hfs, hp⟩
    · rw [htr] at hfal; exact Bool.noConfusion hfal
    · have hps : parseStartTime env r.StartTime = some (.valid tm) := by
        rw [hfs] at htr ⊢
        simp [parseStartTime, htr, hp]
      rw [hps]
      simp only [Option.map, adjustHours, toISOString, Except.map]
      exact ⟨_, rfl, rfl, rfl, rfl, rfl⟩
  · have hps : parseStartTime env r.StartTime = none := by
      simp [parseStartTime, htr]
    rw [hps]
    simp only [Option.map]
    exact ⟨_, rfl, rfl, rfl, rfl, rfl⟩

/-- Claim C6: for every raw record of parser shape whose ANI or DNIS
classifies Invalid (and whose StartTime does not independently throw), the
record processor still emits a CleanedCDRRecord with that field null — the
record is never dropped because of an invalid phone field. -/
theorem c6_invalid_phone_record_emitted (env : JsEnv) (r : RawCDRRecord)
    (st : ProcessingStats) (inv : List String) (dbg : Bool)
    (hA : isStrOrMissing r.ANI = true) (hD : isStrOrMissing r.DNIS = true)
    (hS : startTimeOk env r.StartTime) :
    ∃ c, (processRecord env r st inv dbg).emitted = some c ∧
      (isInvalidOutcome (classifySpec r.ANI) = true → c.ANI = none) ∧
      (isInvalidOutcome (classifySpec r.DNIS) = true → c.DNIS = none) := by
  obtain ⟨c, hc, ha, hd, _, _⟩ := processRecord_emits env r st inv dbg hA hD hS
  refine ⟨c, hc, ?_, ?_⟩ <;> intro hinv
  · rw [ha]; exact outcomeResult_invalid _ hinv
  · rw [hd]; exact outcomeResult_invalid _ hinv

/-- Claim C6 witness: a record with the unparseable ANI abc and a valid
DNIS is emitted, with its ANI null. -/
theorem c6_invalid_phone_record_emitted_witness :
    ∃ c, (processRecord testEnv
        (mkPhoneRecord (.str "abc") (.str "5551234567"))
        createProcessingStats [] false).emitted = some c ∧
      (isInvalidOutcome (classifySpec
          (mkPhoneRecord (.str "abc") (.str "5551234567")).ANI) = true →
        c.ANI = none) ∧
      (isInvalidOutcome (classifySpec
          (mkPhoneRecord (.str "abc") (.str "5551234567")).DNIS) = true →
        c.DNIS = none) :=
  c6_invalid_phone_record_emitted testEnv
    (mkPhoneRecord (.str "abc") (.str "5551234567"))
    createProcessingStats [] false (by decide) (by decide)
    (Or.inl (by decide))

/-- Claim C7 counterexample: an empty-string ANI classifies as
Invalid(EmptyOrNonNumeric), yet the record leaves the invalid-phone
tracking list empty — the claim says every Invalid value, including empty
input, is added. -/
theorem c7_tracking_counterexample :
    classifySpec (.str "") = .invalid .emptyOrNonNumeric ∧
    (processRecord testEnv (mkPhoneRecord (.str "") (.str "5551234567"))
        createProcessingStats [] false).invalid = [] := by
  decide

/-- Claim C7 as amended: for every raw record of parser shape, the entries
appended to the invalid-phone tracking list are exactly the nonempty
string ANI/DNIS values that classify Invalid, tagged with their field
name; empty or missing fields — though they classify
Invalid(EmptyOrNonNumeric) — are not tracked, and no ServiceNumber or
TenDigit value is ever added. -/
theorem c7_tracking_amended (env : JsEnv) (r : RawCDRRecord)
    (st : ProcessingStats) (inv : List String) (dbg : Bool)
    (hA : isStrOrMissing r.ANI = true) (hD : isStrOrMissing r.DNIS = true) :
    (processRecord env r st inv dbg).invalid = inv ++ trackEntriesSpec r :=
  processRecord_invalid env r st inv dbg hA hD

/-- Claim C7 witness: a record with the invalid short code 123 as ANI and
the service number 911 as DNIS contributes exactly the ANI entry. -/
theorem c7_tracking_amended_witness :
    (processRecord testEnv (mkPhoneRecord (.str "123") (.str "911"))
        createProcessingStats [] false).invalid =
      [] ++ trackEntriesSpec (mkPhoneRecord (.str "123") (.str "911")) :=
  c7_tracking_amended testEnv (mkPhoneRecord (.str "123") (.str "911"))
    createProcessingStats [] false (by decide) (by decide)

/-- Concrete check that the expected entries of the witness record are the
single ANI entry. -/
example :
    trackEntriesSpec (mkPhoneRecord (.str "123") (.str "911")) =
      ["ANI: 123"] := by
  decide

/-- Claim C8 counterexample: a record whose BillDuration text is -5 and
whose CallPrice text is -0.05 is emitted with BillDuration -5 and
CallPrice -1/20 — both negative, where the claim requires non-negative
values (the claimed default-to-zero behavior is untouched). -/
theorem c8_negative_counterexample :
    ((processRecord testEnv recNegAmounts createProcessingStats []
        false).emitted.map fun c => c.BillDuration) = some (-5) ∧
    ((processRecord testEnv recNegAmounts createProcessingStats []
        false).emitted.map fun c => c.CallPrice) = some (mkRat (-1) 20) ∧
    (-5 : Int) < 0 ∧ mkRat (-1) 20 < 0 := by
  decide

/-- Claim C8 as amended: BillDuration is the integer prefix parse of the
text with 0 substituted on parse failure (so it can be negative when the
text is negative), and CallPrice is likewise the decimal prefix parse with
0 substituted on parse failure; a parse failure of either field never
fails the record. -/
theorem c8_parse_defaults_amended (env : JsEnv) (r : RawCDRRecord)
    (st : ProcessingStats) (inv : List String) (dbg : Bool)
    (hA : isStrOrMissing r.ANI = true) (hD : isStrOrMissing r.DNIS = true)
    (hS : startTimeOk env r.StartTime) :
    ∃ c, (processRecord env r st inv dbg).emitted = some c ∧
      c.BillDuration = (jsParseIntField r.BillDuration).getD 0 ∧
      (jsParseIntField r.BillDuration = none → c.BillDuration = 0) ∧
      c.CallPrice = (jsParseFloatField r.CallPrice).getD 0 ∧
      (jsParseFloatField r.CallPrice = none → c.CallPrice = 0) := by
  obtain ⟨c, hc, _, _, hb, hp⟩ := processRecord_emits env r st inv dbg hA hD hS
  refine ⟨c, hc, hb, ?_, hp, ?_⟩
  · intro h0; rw [hb, h0]; rfl
  · intro h0; rw [hp, h0]; rfl

/-- Claim C8 witness: a record with unparseable amount texts is emitted
with BillDuration 0 and CallPrice 0. -/
theorem c8_parse_defaults_amended_witness :
    ∃ c, (processRecord testEnv (mkPhoneRecord .missing .missing)
        createProcessingStats [] false).emitted = some c ∧
      c.BillDuration =
        (jsParseIntField (mkPhoneRecord .missing .missing).BillDuration).getD
          0 ∧
      (jsParseIntField (mkPhoneRecord .missing .missing).BillDuration =
          none → c.BillDuration = 0) ∧
      c.CallPrice =
        (jsParseFloatField (mkPhoneRecord .missing
            .missing).CallPrice).getD 0 ∧
      (jsParseFloatField (mkPhoneRecord .missing .missing).CallPrice =
          none → c.CallPrice = 0) :=
  c8_parse_defaults_amended testEnv (mkPhoneRecord .missing .missing)
    createProcessingStats [] false (by decide) (by decide)
    (Or.inl (by decide))

/-- Claim C10: for every raw record with a truthy non-string ANI or DNIS,
the classifier itself returns null without touching the statistics and
without logging, but the caller's invalid-tracking block invokes .replace
on the raw field, the raised exception is caught by the per-record
handler, and the whole record is dropped from the output rather than
emitted with a null phone field. -/
theorem c10_nonstring_field_drops_record (env : JsEnv) (r : RawCDRRecord)
    (st : ProcessingStats) (inv : List String) (dbg : Bool)
    (h : r.ANI = .nonstr true ∨ r.DNIS = .nonstr true) :
    (processRecord env r st inv dbg).emitted = none ∧
    (cleanPhoneNumber (.nonstr true) (some st) dbg).result = none ∧
    (cleanPhoneNumber (.nonstr true) (some st) dbg).stats = some st ∧
    (cleanPhoneNumber (.nonstr true) (some st) dbg).logs = [] := by
  refine ⟨?_, rfl, rfl, rfl⟩
  rcases h with hA | hD
  · unfold processRecord
    rw [hA]
    simp [trackInvalid, cleanPhoneNumber, JSField.truthy]
  · unfold processRecord
    simp only []
    rcases htA : trackInvalid (cleanPhoneNumber r.ANI (some st) dbg).result
        r.ANI "ANI: " inv with e | inv1
    · simp [htA]
    · rw [hD]
      simp [htA, trackInvalid, cleanPhoneNumber, JSField.truthy]

/-- Claim C10 witness: a record whose ANI is a truthy non-string value is
dropped. -/
theorem c10_nonstring_field_drops_record_witness :
    (processRecord testEnv (mkPhoneRecord (.nonstr true) (.str "5551234567"))
        createProcessingStats [] false).emitted = none ∧
    (cleanPhoneNumber (.nonstr true) (some createProcessingStats)
        false).result = none ∧
    (cleanPhoneNumber (.nonstr true) (some createProcessingStats)
        false).stats = some createProcessingStats ∧
    (cleanPhoneNumber (.nonstr true) (some createProcessingStats)
        false).logs = [] :=
  c10_nonstring_field_drops_record testEnv
    (mkPhoneRecord (.nonstr true) (.str "5551234567"))
    createProcessingStats [] false (Or.inl rfl)

/-- The batch fold preserves the statistics balance invariant. -/
theorem foldl_batchStep_balanced (env : JsEnv) (dbg : Bool)
    (records : List RawCDRRecord) :
    ∀ (st : ProcessingStats) (inv : List String)
      (outs : List CleanedCDRRecord), balanced st →
      balanced (records.foldl (batchStep env dbg) (st, inv, outs)).1 := by
  induction records with
  | nil => intro st inv outs h; simpa using h
  | cons r rs ih =>
    intro st inv outs h
    simp only [List.foldl_cons, batchStep]
    apply ih
    rw [processRecord_stats]
    exact statsAfter_balanced _ _ _ (statsAfter_balanced _ _ _ h)

/-- Claim C4: the statistics object satisfies
totalProcessed = tenDigitNumbers + serviceNumbers + invalidNumbers at
creation, after every single classification that receives a balanced
object, and after a whole batch — every operation on the accumulator
preserves the equality. -/
theorem c4_stats_invariant (f : JSField) (st : ProcessingStats) (dbg : Bool)
    (env : JsEnv) (records : List RawCDRRecord) :
    balanced createProcessingStats ∧
    (balanced st → balanced (statsAfter f st dbg)) ∧
    balanced (processAndCleanCDRs env records dbg).stats := by
  refine ⟨by decide, statsAfter_balanced f st dbg, ?_⟩
  unfold processAndCleanCDRs
  simp only []
  exact foldl_batchStep_balanced env dbg records _ _ _ (by decide)

/-- Claim C4 witness: the invariant after classifying the invalid short
code 123 on a fresh statistics object. -/
theorem c4_stats_invariant_witness :
    balanced (statsAfter (.str "123") createProcessingStats false) :=
  (c4_stats_invariant (.str "123") createProcessingStats false testEnv
    []).2.1 (by decide)

/-- The expected tracking entries of a parser-shaped record are as many as
its genuinely invalid phone values. -/
theorem trackEntriesSpec_length (r : RawCDRRecord)
    (hA : isStrOrMissing r.ANI = true) (hD : isStrOrMissing r.DNIS = true) :
    (trackEntriesSpec r).length =
      countInvalidField r.ANI + countInvalidField r.DNIS := by
  unfold trackEntriesSpec entryFor countInvalidField
  cases ha : r.ANI <;> cases hd : r.DNIS <;>
    simp_all [isStrOrMissing, JSField.truthy] <;>
    split_ifs <;> simp_all

/-- The batch fold appends exactly the expected tracking entries of each
parser-shaped record, in order. -/
theorem foldl_batchStep_invalid (env : JsEnv) (dbg : Bool)
    (records : List RawCDRRecord) :
    ∀ (st : ProcessingStats) (inv : List String)
      (outs : List CleanedCDRRecord),
      (∀ r ∈ records, isStrOrMissing r.ANI = true ∧
        isStrOrMissing r.DNIS = true) →
      (records.foldl (batchStep env dbg) (st, inv, outs)).2.1 =
        inv ++ (records.map trackEntriesSpec).flatten := by
  induction records with
  | nil => intro st inv outs _; simp
  | cons r rs ih =>
    intro st inv outs h
    have hr := h r (List.mem_cons_self r rs)
    simp only [List.foldl_cons, batchStep, List.map_cons, List.flatten]
    rw [ih _ _ _ fun x hx => h x (List.mem_cons_of_mem _ hx)]
    rw [processRecord_invalid env r st inv dbg hr.1 hr.2]
    simp [List.append_assoc]

/-- On a parser-shaped batch, the length of the invalid-phone tracking
list is the genuinely-invalid phone-value count of the batch. -/
theorem processAndCleanCDRs_invalid_length (env : JsEnv)
    (records : List RawCDRRecord) (dbg : Bool)
    (h : ∀ r ∈ records, isStrOrMissing r.ANI = true ∧
      isStrOrMissing r.DNIS = true) :
    (processAndCleanCDRs env records dbg).invalidPhoneNumbers.length =
      genuinelyInvalidCount records := by
  unfold processAndCleanCDRs genuinelyInvalidCount
  simp only []
  rw [foldl_batchStep_invalid env dbg records _ _ _ h]
  simp only [List.nil_append, List.length_flatten, List.map_map]
  congr 1
  apply List.map_congr_left
  intro r hr
  exact trackEntriesSpec_length r (h r hr).1 (h r hr).2

/-- The alert flag in terms of the tracking-list length. -/
theorem alertSent_iff (env : JsEnv) (records : List RawCDRRecord)
    (dbg : Bool) :
    ((processAndCleanCDRs env records dbg).alertSent = true ↔
      (processAndCleanCDRs env records dbg).invalidPhoneNumbers.length > 0 ∧
      (processAndCleanCDRs env records dbg).invalidPhoneNumbers.length ≥
        alertThreshold records.length) := by
  unfold processAndCleanCDRs
  simp only []
  split_ifs with h0 <;> simp [h0]

/-- Claim C3: for every parser-shaped batch, an alert is produced if and
only if the count of genuinely invalid phone values (ANI/DNIS values that
failed classification — never a valid service number such as 911, but
including non-whitelisted 3-digit codes such as 123) reaches
threshold = max(5, floor(batchSize * 0.10)); otherwise only a summary is
produced. -/
theorem c3_alert_iff_threshold (env : JsEnv) (records : List RawCDRRecord)
    (dbg : Bool)
    (h : ∀ r ∈ records, isStrOrMissing r.ANI = true ∧
      isStrOrMissing r.DNIS = true) :
    ((processAndCleanCDRs env records dbg).alertSent = true ↔
      genuinelyInvalidCount records ≥ alertThreshold records.length) := by
  have hlen := processAndCleanCDRs_invalid_length env records dbg h
  rw [alertSent_iff env records dbg, hlen]
  constructor
  · rintro ⟨-, hge⟩; exact hge
  · intro hge
    have h5 : 5 ≤ alertThreshold records.length := le_max_left _ _
    exact ⟨by omega, hge⟩

/-- Claim C3 witness: a batch of five records with the invalid short code
123 as ANI meets the minimum threshold of five and alerts. -/
theorem c3_alert_iff_threshold_witness :
    ((processAndCleanCDRs testEnv alertBatch false).alertSent = true ↔
      genuinelyInvalidCount alertBatch ≥ alertThreshold alertBatch.length) :=
  c3_alert_iff_threshold testEnv alertBatch false (by decide)

/-- Concrete check: the witness batch does alert, and its count and
threshold are both five. -/
example :
    (processAndCleanCDRs testEnv alertBatch false).alertSent = true ∧
    genuinelyInvalidCount alertBatch = 5 ∧
    alertThreshold alertBatch.length = 5 := by
  decide

end CDR
